import Mathlib

/-! Verification of the code-review service (`src/reviewer.py`) against its
natural-language specification.

The embedding below translates the pure logic of `reviewer.py`:
string trimming (Python `str.strip`), prompt construction
(`CodeReviewService._build_prompt`), the system-instruction string
(`CodeReviewService._system_instructions`), service construction
(`CodeReviewService.__init__`, with the process environment passed
explicitly), and the dispatch logic (`CodeReviewService.review`, with the
remote Messages API modelled as an explicit transport function and the
list of dispatched requests returned alongside the outcome).  Console
printing is observability only and carries no data, so it is not
modelled.
-/

namespace Reviewer

/-- Whitespace class used by Python `str.strip()` (the ASCII whitespace
characters of `str.isspace`; the claims under verification do not depend
on the exact extent of the Unicode whitespace class). -/
def pyIsSpace (c : Char) : Bool :=
  c = ' ' || c = '\t' || c = '\n' || c = '\r' || c = '\x0b' || c = '\x0c'

/-- Python `str.strip()` on the character list: drop whitespace from the
front, then from the back. -/
def pyStripList (l : List Char) : List Char :=
  List.rdropWhile pyIsSpace (List.dropWhile pyIsSpace l)

/-- Python `str.strip()`: remove leading and trailing whitespace. -/
def pyStrip (s : String) : String :=
  String.mk (pyStripList s.data)

/-- Source line 100: `filename_line = f"Filename: {filename}\n" if filename else ""`.
Python truthiness: `None` and `""` are falsy. -/
def filename_line (filename : Option String) : String :=
  match filename with
  | some f => if f = "" then "" else "Filename: " ++ f ++ "\n"
  | none => ""

/-- Source line 101: `language_line = f"Language: {language}\n" if language else ""`. -/
def language_line (language : Option String) : String :=
  match language with
  | some l => if l = "" then "" else "Language: " ++ l ++ "\n"
  | none => ""

/-- Source line 102: `notes_line = f"Submitter notes: {notes.strip()}\n" if notes else ""`. -/
def notes_line (notes : Option String) : String :=
  match notes with
  | some n => if n = "" then "" else "Submitter notes: " ++ pyStrip n ++ "\n"
  | none => ""

/-- Source line 114: the fence tag `{language or ''}`. -/
def language_tag (language : Option String) : String :=
  match language with
  | some l => if l = "" then "" else l
  | none => ""

/-- Source lines 105-111: the fixed instructional preamble of the prompt. -/
def prompt_preamble : String :=
  "You are reviewing a single code file uploaded by a developer. " ++
  "Return your feedback in Markdown with:\n" ++
  "1. A concise summary of the code\x27s intent and overall quality.\n" ++
  "2. A prioritized list of actionable findings grouped by severity.\n" ++
  "3. Specific code references (line numbers if available) and concrete suggestions.\n" ++
  "4. Optional improvement ideas if time allows.\n\n" ++
  "Only mention what you directly observe and avoid repeating requirements.\n\n"

/-- Source lines 113-114: the trailing code section of the prompt,
`"Code:\n" f"```{language or ''}\n{code.strip()}\n```"`. -/
def code_section (code : String) (language : Option String) : String :=
  "Code:\n" ++ "```" ++ language_tag language ++ "\n" ++ pyStrip code ++ "\n```"

/-- Model of `CodeReviewService._build_prompt` (source lines 96-115). -/
def build_prompt (code : String) (filename language notes : Option String) : String :=
  prompt_preamble ++
  filename_line filename ++ language_line language ++ notes_line notes ++
  code_section code language

/-- Model of `CodeReviewService._system_instructions` (source lines 117-124),
transcribed verbatim (including the `categpry` typo in the source). -/
def system_instructions : String :=
  "You are a senior software engineer. " ++
  "Review a single file at a time. Do not use emojis. " ++
  "Review based on the following metrics: Code accuracy, code optimality, security vulnerabilities, standard coding conventions, code quality. " ++
  "Format the response consisting of 5 sections for each of these metrics. Split each section into 3 categories: Major issues, Minor issues, What it does well. " ++
  "Only include the category if something is found in that category, do not list the categpry if nothing was found, like no major issues, or nothing was done well, etc."

/-- A content block of a Messages API response (only its `text` is read). -/
structure ContentBlock where
  text : String
  deriving DecidableEq

/-- Usage counters of a Messages API response. -/
structure Usage where
  input_tokens : Nat
  output_tokens : Nat
  deriving DecidableEq

/-- A Messages API response as read by `review` (content blocks, usage, model). -/
structure Response where
  content : List ContentBlock
  usage : Usage
  model : String
  deriving DecidableEq

/-- Model of `ReviewMetadata` (source lines 29-35). -/
structure ReviewMetadata where
  input_tokens : Nat
  output_tokens : Nat
  model : String
  deriving DecidableEq

/-- One message of the outbound request. -/
structure Message where
  role : String
  content : String
  deriving DecidableEq

/-- The outbound request of `client.messages.create` (source lines 63-74). -/
structure Request where
  model : String
  max_tokens : Nat
  temperature : Nat
  system : String
  messages : List Message
  deriving DecidableEq

/-- The state of a constructed `CodeReviewService`: resolved key and model. -/
structure Service where
  api_key : String
  model : String
  deriving DecidableEq

/-- Errors of the review operation: `ValueError` for empty input
(the spec calls it `InvalidInput`) and a re-raised `APIError` carrying its
message (the spec calls it `ServiceError`). -/
inductive ReviewError where
  | invalidInput (msg : String)
  | serviceError (msg : String)
  deriving DecidableEq

/-- Model of `MissingAPIKeyError` (source lines 25-26; the spec calls it
`MissingCredential`). -/
inductive InitError where
  | missingAPIKey (msg : String)
  deriving DecidableEq

/-- The message of `MissingAPIKeyError` (source lines 44-46). -/
def missing_key_message : String :=
  "ANTHROPIC_API_KEY is not set. Create a .env file or export it before running the reviewer."

/-- The default model identifier (source line 49). -/
def default_model : String := "claude-sonnet-4-5-20250929"

/-- Model of `CodeReviewService.__init__` (source lines 41-50).  The process
environment is passed explicitly: `env_api_key` is `os.getenv("ANTHROPIC_API_KEY")`
and `env_model` is the value of `ANTHROPIC_MODEL` when set.  Python `or`
treats `None` and `""` as falsy.  On success the resolved key and model are
held in the returned `Service`; no network call occurs during construction. -/
def initService (api_key : Option String) (model : Option String)
    (env_api_key : Option String) (env_model : Option String) :
    Except InitError Service :=
  let resolved_key : Option String :=
    match api_key with
    | some k => if k = "" then env_api_key else some k
    | none => env_api_key
  match resolved_key with
  | none => Except.error (InitError.missingAPIKey missing_key_message)
  | some k =>
    if k = "" then Except.error (InitError.missingAPIKey missing_key_message)
    else
      Except.ok
        { api_key := k
          model :=
            match model with
            | some m => if m = "" then env_model.getD default_model else m
            | none => env_model.getD default_model }

/-- Message of `ValueError("No code provided for review.")` (source line 57). -/
def invalid_input_message : String := "No code provided for review."

/-- The placeholder used when the response has no content blocks
(source line 79). -/
def empty_response_text : String := "Claude returned an empty response."

/-- The single request built by `review` (source lines 63-74):
fixed `max_tokens=2000`, `temperature=0`, the fixed system instructions and
one user-role message holding the prompt. -/
def review_request (svc : Service) (prompt : String) : Request :=
  { model := svc.model
    max_tokens := 2000
    temperature := 0
    system := system_instructions
    messages := [{ role := "user", content := prompt }] }

/-- Model of `CodeReviewService.review` (source lines 52-94).  The remote call
is modelled by `transport`; the result pairs the list of requests actually
dispatched with the outcome, so that absence of network calls and absence of
retries are visible in the model.  An `APIError` raised by the call is
re-raised (source line 77), surfacing its message unchanged. -/
def review (svc : Service) (code : String) (filename language notes : Option String)
    (transport : Request → Except String Response) :
    List Request × Except ReviewError (String × ReviewMetadata) :=
  if pyStrip code = "" then
    ([], Except.error (ReviewError.invalidInput invalid_input_message))
  else
    let prompt := build_prompt code filename language notes
    let req := review_request svc prompt
    match transport req with
    | Except.error msg => ([req], Except.error (ReviewError.serviceError msg))
    | Except.ok resp =>
      let content : String :=
        match resp.content with
        | [] => empty_response_text
        | c :: _ => c.text
      ([req], Except.ok (content,
        { input_tokens := resp.usage.input_tokens
          output_tokens := resp.usage.output_tokens
          model := resp.model }))

/-- Modelled from the spec (section 4.2 and section 8): the metadata lines the
Prompt Builder is specified to emit for the filename field. -/
def spec_filename_lines (filename : Option String) : List String :=
  match filename with
  | some f => if f = "" then [] else ["Filename: " ++ f]
  | none => []

/-- Modelled from the spec: the metadata lines for the language field. -/
def spec_language_lines (language : Option String) : List String :=
  match language with
  | some l => if l = "" then [] else ["Language: " ++ l]
  | none => []

/-- Modelled from the spec: the metadata lines for the notes field. -/
def spec_notes_lines (notes : Option String) : List String :=
  match notes with
  | some n => if n = "" then [] else ["Submitter notes: " ++ pyStrip n]
  | none => []

/-- Modelled from the spec: the full metadata-line list, in the fixed order
filename, then language, then notes; an omitted or empty field contributes
no line, a present non-empty field contributes exactly one line. -/
def spec_meta_lines (filename language notes : Option String) : List String :=
  spec_filename_lines filename ++ spec_language_lines language ++ spec_notes_lines notes

/-- Render a list of lines as text, each line terminated by a newline. -/
def lines_text : List String → String
  | [] => ""
  | s :: rest => s ++ "\n" ++ lines_text rest

/-- Helper: a stripped list needs no further stripping at the front. -/
theorem dropWhile_pyStripList (l : List Char) :
    List.dropWhile pyIsSpace (pyStripList l) = pyStripList l := by
  rw [List.dropWhile_eq_self_iff]
  intro hl
  have hpre : pyStripList l <+: List.dropWhile pyIsSpace l :=
    List.rdropWhile_prefix pyIsSpace (List.dropWhile pyIsSpace l)
  have hlen : 0 < (List.dropWhile pyIsSpace l).length :=
    lt_of_lt_of_le hl hpre.length_le
  have hget : (pyStripList l).get ⟨0, hl⟩ = (List.dropWhile pyIsSpace l).get ⟨0, hlen⟩ := by
    simpa using hpre.getElem hl
  rw [hget]
  exact List.dropWhile_get_zero_not pyIsSpace l hlen

/-- Helper: stripping a character list is idempotent. -/
theorem pyStripList_idem (l : List Char) :
    pyStripList (pyStripList l) = pyStripList l := by
  show List.rdropWhile pyIsSpace (List.dropWhile pyIsSpace (pyStripList l)) = pyStripList l
  rw [dropWhile_pyStripList]
  exact List.rdropWhile_idempotent pyIsSpace (List.dropWhile pyIsSpace l)

/-- Helper: Python `str.strip()` is idempotent. -/
theorem pyStrip_idem (s : String) : pyStrip (pyStrip s) = pyStrip s := by
  show String.mk (pyStripList (pyStripList s.data)) = String.mk (pyStripList s.data)
  rw [pyStripList_idem]

/-- Helper: stripping the empty string yields the empty string. -/
theorem pyStrip_empty : pyStrip ("") = "" := rfl

/-- Helper: rendering lines distributes over list concatenation. -/
theorem lines_text_append (a b : List String) :
    lines_text (a ++ b) = lines_text a ++ lines_text b := by
  induction a with
  | nil => simp [lines_text, String.empty_append]
  | cons x xs ih => simp [lines_text, ih, String.append_assoc]

/-- Helper: the spec-side filename lines render to the code-side filename line. -/
theorem lines_text_spec_filename (filename : Option String) :
    lines_text (spec_filename_lines filename) = filename_line filename := by
  cases filename with
  | none => rfl
  | some f =>
    by_cases hf : f = "" <;>
      simp [spec_filename_lines, filename_line, lines_text, hf, String.append_empty,
        String.append_assoc]

/-- Helper: the spec-side language lines render to the code-side language line. -/
theorem lines_text_spec_language (language : Option String) :
    lines_text (spec_language_lines language) = language_line language := by
  cases language with
  | none => rfl
  | some l =>
    by_cases hl : l = "" <;>
      simp [spec_language_lines, language_line, lines_text, hl, String.append_empty,
        String.append_assoc]

/-- Helper: the spec-side notes lines render to the code-side notes line. -/
theorem lines_text_spec_notes (notes : Option String) :
    lines_text (spec_notes_lines notes) = notes_line notes := by
  cases notes with
  | none => rfl
  | some n =>
    by_cases hn : n = "" <;>
      simp [spec_notes_lines, notes_line, lines_text, hn, String.append_empty,
        String.append_assoc]

/-- C1 (amended, Dispatcher part): for every code string whose trim is empty,
`review` rejects the input with the `InvalidInput` error of source line 57 and
dispatches no request to the completion endpoint, for any transport. -/
theorem review_rejects_whitespace_only (svc : Service) (code : String)
    (filename language notes : Option String)
    (transport : Request → Except String Response)
    (h : pyStrip code = "") :
    review svc code filename language notes transport =
      ([], Except.error (ReviewError.invalidInput invalid_input_message)) := by
  simp [review, h]

/-- C1 witness: the whitespace-only input `" \n "` is rejected with
`InvalidInput` and the dispatched-request list is empty. -/
theorem review_rejects_whitespace_only_witness :
    pyStrip (" \n ") = "" ∧
    review ⟨("k"), ("m")⟩ (" \n ") none none none (fun _ => Except.error ("boom")) =
      ([], Except.error (ReviewError.invalidInput invalid_input_message)) :=
  ⟨by decide, review_rejects_whitespace_only _ _ _ _ _ _ (by decide)⟩

/-- C1 counterexample: the Prompt Builder itself does not reject empty code.
Invoked directly on the empty string (with no optional fields), `_build_prompt`
returns a normal prompt whose fenced code block is empty, rather than any
`InvalidInput` error; the validation of empty input lives only in `review`
(source line 56), which runs before `_build_prompt` is ever called. -/
theorem build_prompt_accepts_empty_code :
    build_prompt ("") none none none = prompt_preamble ++ ("Code:\n```\n\n```") := by
  have h : pyStrip ("") = "" := rfl
  simp only [build_prompt, filename_line, language_line, notes_line, code_section,
    language_tag, h, String.append_empty, String.empty_append, String.append_assoc]
  congr 1

/-- C2: for every code string that is non-empty after trimming, the Prompt
Builder output contains the trimmed code verbatim, enclosed in a fenced code
block between triple-backtick delimiters. -/
theorem build_prompt_contains_code_fenced (code : String)
    (filename language notes : Option String) (_h : pyStrip code ≠ "") :
    ∃ p, build_prompt code filename language notes =
      p ++ ("```" ++ language_tag language ++ "\n" ++ pyStrip code ++ "\n```") := by
  refine ⟨prompt_preamble ++ filename_line filename ++ language_line language ++
    notes_line notes ++ "Code:\n", ?_⟩
  simp only [build_prompt, code_section, String.append_assoc]

/-- C2 witness: the prompt for `"x = 1 "` with a `python` language hint holds
the trimmed code inside the fenced block. -/
theorem build_prompt_contains_code_fenced_witness :
    pyStrip ("x = 1 ") ≠ "" ∧
    ∃ p, build_prompt ("x = 1 ") none (some ("python")) none =
      p ++ ("```" ++ language_tag (some ("python")) ++ "\n" ++ pyStrip ("x = 1 ") ++ "\n```") :=
  ⟨by decide, build_prompt_contains_code_fenced _ _ _ _ (by decide)⟩

/-- C3: when the remote completion call fails, `review` surfaces a
`ServiceError` carrying the underlying message verbatim, dispatches exactly
one request (no retry), and produces no review result. -/
theorem review_surfaces_service_error (svc : Service) (code : String)
    (filename language notes : Option String) (msg : String)
    (h : pyStrip code ≠ "") :
    review svc code filename language notes (fun _ => Except.error msg) =
      ([review_request svc (build_prompt code filename language notes)],
        Except.error (ReviewError.serviceError msg)) := by
  simp [review, h]

/-- C3 witness: a failing transport with message `"rate limited"` yields a
`ServiceError` with that exact message after a single dispatched request. -/
theorem review_surfaces_service_error_witness :
    pyStrip ("x = 1") ≠ "" ∧
    review ⟨("k"), ("m")⟩ ("x = 1") none none none
        (fun _ => Except.error ("rate limited")) =
      ([review_request ⟨("k"), ("m")⟩ (build_prompt ("x = 1") none none none)],
        Except.error (ReviewError.serviceError ("rate limited"))) :=
  ⟨by decide, review_surfaces_service_error _ _ _ _ _ _ (by decide)⟩

/-- C4: with no explicit key argument and no credential in the environment,
service construction fails with the `MissingCredential` error (for every model
argument and model environment value); no `Service` value, and hence no
client, is created, and the constructor performs no network call. -/
theorem initService_missing_credential (model env_model : Option String) :
    initService none model none env_model =
      Except.error (InitError.missingAPIKey missing_key_message) := by
  simp [initService]

/-- C5: the Prompt Builder output is exactly the fixed preamble, followed by
the rendering of the spec-side metadata-line list, followed by the code
section.  The metadata-line list contributes no line for an omitted field,
exactly one line for a present non-empty field, and its lines appear in the
fixed order filename, language, notes. -/
theorem build_prompt_meta_lines (code : String) (filename language notes : Option String) :
    build_prompt code filename language notes =
      prompt_preamble ++ lines_text (spec_meta_lines filename language notes) ++
        code_section code language := by
  rw [spec_meta_lines, lines_text_append, lines_text_append,
    lines_text_spec_filename, lines_text_spec_language, lines_text_spec_notes]
  simp [build_prompt, String.append_assoc]

/-- C6: on a successful remote call whose response carries the single text
block `"OK"` and usage counters 10 and 5, `review` returns the markdown
`"OK"` with input tokens 10 and output tokens 5; and for every response with
no content blocks, the returned markdown is the literal placeholder string. -/
theorem review_success_result (svc : Service) (code : String)
    (filename language notes : Option String) (m : String)
    (h : pyStrip code ≠ "") :
    (review svc code filename language notes
        (fun _ => Except.ok
          { content := [{ text := "OK" }]
            usage := { input_tokens := 10, output_tokens := 5 }
            model := m })).2 =
      Except.ok (("OK"), { input_tokens := 10, output_tokens := 5, model := m }) ∧
    (∀ u : Usage, ∀ m2 : String,
      (review svc code filename language notes
          (fun _ => Except.ok { content := [], usage := u, model := m2 })).2 =
        Except.ok (empty_response_text,
          { input_tokens := u.input_tokens, output_tokens := u.output_tokens, model := m2 })) := by
  constructor
  · simp [review, h]
  · intro u m2
    simp [review, h]

/-- C6 witness: concrete successful review of the code `"x"`. -/
theorem review_success_result_witness :
    pyStrip ("x") ≠ "" ∧
    ((review ⟨("k"), ("mod")⟩ ("x") none none none
        (fun _ => Except.ok
          { content := [{ text := "OK" }]
            usage := { input_tokens := 10, output_tokens := 5 }
            model := ("mod") })).2 =
      Except.ok (("OK"), { input_tokens := 10, output_tokens := 5, model := ("mod") }) ∧
    (∀ u : Usage, ∀ m2 : String,
      (review ⟨("k"), ("mod")⟩ ("x") none none none
          (fun _ => Except.ok { content := [], usage := u, model := m2 })).2 =
        Except.ok (empty_response_text,
          { input_tokens := u.input_tokens, output_tokens := u.output_tokens, model := m2 }))) :=
  ⟨by decide, review_success_result _ _ _ _ _ _ (by decide)⟩

/-- C7: every request `review` dispatches to the completion endpoint carries
the fixed maximum-output-token bound 2000, sampling temperature 0, the fixed
system-instruction string, and exactly one user-role message whose content is
the prompt produced by the Prompt Builder. -/
theorem review_request_shape (svc : Service) (code : String)
    (filename language notes : Option String)
    (transport : Request → Except String Response) (r : Request)
    (hr : r ∈ (review svc code filename language notes transport).1) :
    r.max_tokens = 2000 ∧ r.temperature = 0 ∧ r.system = system_instructions ∧
      r.messages = [{ role := "user", content := build_prompt code filename language notes }] := by
  unfold review at hr
  by_cases h : pyStrip code = ""
  · simp [h] at hr
  · simp only [h, if_neg] at hr
    rcases hx : transport (review_request svc (build_prompt code filename language notes)) with
      msg | resp <;> rw [hx] at hr <;> simp at hr <;> subst hr <;>
      exact ⟨rfl, rfl, rfl, rfl⟩

/-- C7 witness: the one request dispatched for the code `"x"` has the fixed
token bound, zero temperature, the system instructions, and the single
user-role message holding the built prompt. -/
theorem review_request_shape_witness :
    ((review_request ⟨("k"), ("m")⟩ (build_prompt ("x") none none none)) ∈
      (review ⟨("k"), ("m")⟩ ("x") none none none (fun _ => Except.error ("e"))).1) ∧
    ((review_request ⟨("k"), ("m")⟩ (build_prompt ("x") none none none)).max_tokens = 2000 ∧
      (review_request ⟨("k"), ("m")⟩ (build_prompt ("x") none none none)).temperature = 0 ∧
      (review_request ⟨("k"), ("m")⟩ (build_prompt ("x") none none none)).system =
        system_instructions ∧
      (review_request ⟨("k"), ("m")⟩ (build_prompt ("x") none none none)).messages =
        [{ role := ("user"), content := build_prompt ("x") none none none }]) :=
  have hm : (review_request ⟨("k"), ("m")⟩ (build_prompt ("x") none none none)) ∈
      (review ⟨("k"), ("m")⟩ ("x") none none none (fun _ => Except.error ("e"))).1 := by
    simp [review, show pyStrip ("x") ≠ "" by decide]
  ⟨hm, review_request_shape _ _ _ _ _ _ _ hm⟩

/-- C8: the fenced block of the Prompt Builder output opens with a bare
triple backtick when no language is provided, and with the triple backtick
followed by the language hint when a non-empty language is provided. -/
theorem build_prompt_fence_tag (code : String) (filename notes : Option String)
    (language : Option String) :
    (language = none →
      ∃ p, build_prompt code filename language notes =
        p ++ ("```\n" ++ pyStrip code ++ "\n```")) ∧
    (∀ s, language = some s → s ≠ "" →
      ∃ p, build_prompt code filename language notes =
        p ++ ("```" ++ s ++ "\n" ++ pyStrip code ++ "\n```")) := by
  constructor
  · rintro rfl
    refine ⟨prompt_preamble ++ filename_line filename ++ language_line none ++
      notes_line notes ++ "Code:\n", ?_⟩
    simp only [build_prompt, code_section, language_tag, String.append_assoc]
    rfl
  · rintro s rfl hs
    refine ⟨prompt_preamble ++ filename_line filename ++ language_line (some s) ++
      notes_line notes ++ "Code:\n", ?_⟩
    simp only [build_prompt, code_section, language_tag, if_neg hs, String.append_assoc]

/-- C8 witness: untagged fence for code `"c"` with no language, tagged fence
with the hint `"py"` when that language is provided. -/
theorem build_prompt_fence_tag_witness :
    (∃ p, build_prompt ("c") none none none = p ++ ("```\n" ++ pyStrip ("c") ++ "\n```")) ∧
    (∃ p, build_prompt ("c") none (some ("py")) none =
      p ++ ("```" ++ ("py") ++ "\n" ++ pyStrip ("c") ++ "\n```")) :=
  ⟨(build_prompt_fence_tag ("c") none none none).1 rfl,
   (build_prompt_fence_tag ("c") none none (some ("py"))).2 ("py") rfl (by decide)⟩

/-- C9: the Prompt Builder is a pure function of its four arguments — its
embedding is a total function, so two invocations with identical arguments
return identical strings — and the prompt content placed in the outbound
message is independent of the service state (key and model). -/
theorem build_prompt_deterministic_state_independent (code : String)
    (filename language notes : Option String) (svc svc2 : Service) :
    build_prompt code filename language notes = build_prompt code filename language notes ∧
    (review_request svc (build_prompt code filename language notes)).messages =
      (review_request svc2 (build_prompt code filename language notes)).messages :=
  ⟨rfl, rfl⟩

/-- C10: the Prompt Builder output for any code string equals its output for
the trimmed code string — leading and trailing whitespace of the code never
changes the prompt, for every choice of the optional fields. -/
theorem build_prompt_strip_invariant (code : String) (filename language notes : Option String) :
    build_prompt (pyStrip code) filename language notes =
      build_prompt code filename language notes := by
  simp [build_prompt, code_section, pyStrip_idem]

end Reviewer
